import Mathlib

/-!
# Fork-choice core of the beacon-chain node: a shallow embedding

This file embeds, in Lean 4, the fork-choice core of the repository:
the persistent block store (package `kv`, `src/unnamed/part_003`), the
fork-choice store with `ancestor`, `latestAttestingBalance`, `Head`
(package `forkchoice`, `src/unnamed/part_003`), block admission
(`OnBlock`, `src/beacon-chain/blockchain/forkchoice/process_block.go`)
and the gossip-validation pipeline for proposer slashings
(`src/unnamed/part_000`).  Machine integers (`uint64`) are modelled as
`Nat`: none of the embedded code paths can overflow 64 bits on the
inputs considered, and no arithmetic here wraps.  32-byte roots
(`bytes32`, Go `[32]byte`) are modelled as `Nat`: all roots have the
same fixed length, so `bytes.Equal` is equality and `bytes.Compare`
(lexicographic on equal-length strings) is numeric comparison of the
big-endian value.  Fallible Go returns `(T, error)` become `Option`
where the embedded code can actually produce an error, and plain
values where it cannot.  Unbounded Go recursion/loops (`ancestor`,
the `Head` loop) take explicit fuel; exhausted fuel (`none`) models
divergence and is never identified with a returned value.
-/

namespace Prysm

/-- `params.BeaconConfig().SlotsPerEpoch` in the minimal configuration the
spec fixes for its scenarios (spec §8: `SLOTS_PER_EPOCH = 8`). -/
def SLOTS_PER_EPOCH : Nat := 8

/-- `params.BeaconConfig().SecondsPerSlot` (spec §8: `SECONDS_PER_SLOT = 6`). -/
def SECONDS_PER_SLOT : Nat := 6

/-- A 32-byte root (`bytes32`); fixed width, so byte-lexicographic order is
numeric order of the big-endian value. -/
abbrev Root := Nat

/-- `ethpb.BeaconBlock`, restricted to the fields the fork-choice core
reads: `Slot`, `ParentRoot`, `StateRoot` (the body is opaque). -/
structure BeaconBlock where
  slot : Nat
  parentRoot : Root
  stateRoot : Root
deriving DecidableEq, Repr

/-- The proto zero value `&ethpb.BeaconBlock{}`: every field zero.  A nil
`[]byte` parent root and a 32-zero-byte one are conflated to `0`, exactly as
`bytesutil.ToBytes32` conflates them at every use site. -/
def BeaconBlock.protoZero : BeaconBlock := ⟨0, 0, 0⟩

/-- `ethpb.Checkpoint`. -/
structure Checkpoint where
  epoch : Nat
  root : Root
deriving DecidableEq, Repr

/-- `ethpb.Validator`, restricted to the fields active-index selection and
balance summation read. -/
structure Validator where
  effectiveBalance : Nat
  activationEpoch : Nat
  exitEpoch : Nat
deriving DecidableEq, Repr

/-- `pb.ValidatorLatestVote`: the latest attestation of a validator used by
fork choice. -/
structure Vote where
  epoch : Nat
  root : Root
deriving DecidableEq, Repr

/-- `pb.BeaconState`, restricted to the fields the embedded code reads. -/
structure BeaconState where
  genesisTime : Nat
  slot : Nat
  validators : List Validator
  currentJustifiedCheckpoint : Checkpoint
  finalizedCheckpoint : Checkpoint
deriving DecidableEq, Repr

/-- Association-list lookup, the model of a bolt bucket `Get`. -/
def lookupA {κ α : Type} [DecidableEq κ] : List (κ × α) → κ → Option α
  | [], _ => none
  | (k, v) :: rest, key => if key = k then some v else lookupA rest key

/-- Association-list write, the model of a bolt bucket `Put`: the key is
bound to the new value, other keys are untouched.  (bolt keeps keys sorted;
every property proved below is insensitive to iteration order.) -/
def putA {κ α : Type} [DecidableEq κ] (l : List (κ × α)) (key : κ) (v : α) :
    List (κ × α) :=
  (l.filter fun p => p.1 ≠ key) ++ [(key, v)]

/-- The embedded key-value database (package `kv`): the buckets the claims
touch.  `blocksHeadRoot` is the value of `blocksBucket[headBlockRootKey]`
(written by `SaveHeadBlockRoot`); `validatorsHeadRoot` is the value of
`validatorsBucket[headBlockRootKey]` (read by `HeadBlock`; nothing in the
source writes it).  The index buckets map an index key to the stored
concatenation of 32-byte roots, modelled as a list. -/
structure DB where
  blocks : List (Root × BeaconBlock)
  blocksHeadRoot : Option Root
  validatorsHeadRoot : Option Root
  validatorsBlocks : List (Root × BeaconBlock)
  parentIdx : List (Root × List Root)
  slotIdx : List (Nat × List Root)
  states : List (Root × BeaconState)
  latestVotes : List (Nat × Vote)
deriving DecidableEq, Repr

def DB.empty : DB := ⟨[], none, none, [], [], [], [], []⟩

/-- `kv.Store.Block` (src/unnamed/part_003 lines 256-268).  A pre-allocated
`&ethpb.BeaconBlock{}` is returned; when the key is absent (`enc == nil`)
`Unmarshal` is skipped and that proto zero value — never nil — is the
result. -/
def DB.kvBlock (db : DB) (r : Root) : BeaconBlock :=
  (lookupA db.blocks r).getD BeaconBlock.protoZero

/-- `kv.Store.HasBlock` (src/unnamed/part_003 lines 372-382). -/
def DB.hasBlock (db : DB) (r : Root) : Bool :=
  (lookupA db.blocks r).isSome

/-- The spec's words for block retrieval (§4.A): `get_block(root) →
Option<Block>`, absence surfaced as `Option::None`.  Stated only to be
compared against `DB.kvBlock`, the function the source implements. -/
def specGetBlock (db : DB) (r : Root) : Option BeaconBlock :=
  lookupA db.blocks r

/-- Modelled from the spec: `kv.Store.State` / `SaveState` are not under
src/ (only their callers are).  Spec §4.A: `get_state(root) →
Option<State>`, `NotFound` surfaced as `Option::None`; the forkchoice
callers in src/ check the result against nil accordingly. -/
def DB.getState (db : DB) (r : Root) : Option BeaconState :=
  lookupA db.states r

/-- Modelled from the spec: `kv.Store.SaveState` (`put_state(state,
block_root)`, spec §4.A) is not under src/. -/
def DB.saveState (db : DB) (st : BeaconState) (blockRoot : Root) : DB :=
  { db with states := putA db.states blockRoot st }

/-- `kv.Store.ValidatorLatestVote`: not under src/; spec §4.A
(`get_latest_vote(validator_index) → Option<Vote>`), the caller
`latestAttestingBalance` checks the result against nil. -/
def DB.validatorLatestVote (db : DB) (i : Nat) : Option Vote :=
  lookupA db.latestVotes i

/-- Append one root to the stored root-list at an index key, the model of
`updateValueForIndicesMap` (not under src/): per spec §4.A the secondary
indices are updated with the primary write; the stored value is the
existing concatenation of roots with the new root appended. -/
def appendIdx {κ : Type} [DecidableEq κ] (l : List (κ × List Root))
    (key : κ) (r : Root) : List (κ × List Root) :=
  putA l key ((lookupA l key).getD [] ++ [r])

/-- `kv.Store.SaveBlock` (src/unnamed/part_003 lines 416-447): keyed by the
signing root `sr block`, updating the parent-root index (key
`parentRootIdx ∥ parent_root`) and the slot index (key `uint64ToBytes
(slot)`) together with the primary write. -/
def DB.saveBlock (sr : BeaconBlock → Root) (db : DB) (b : BeaconBlock) : DB :=
  { db with
      blocks := putA db.blocks (sr b) b
      parentIdx := appendIdx db.parentIdx b.parentRoot (sr b)
      slotIdx := appendIdx db.slotIdx b.slot (sr b) }

/-- `kv.Store.SaveHeadBlockRoot` (src/unnamed/part_003 lines 491-497): puts
the root under `headBlockRootKey` in the *blocks* bucket. -/
def DB.saveHeadBlockRoot (db : DB) (r : Root) : DB :=
  { db with blocksHeadRoot := some r }

/-- `kv.Store.HeadBlock` (src/unnamed/part_003 lines 270-286): reads
`headBlockRootKey` from the *validators* bucket, then looks the returned
root up in that same bucket; at each absent read it returns the
pre-allocated proto zero block. -/
def DB.headBlock (db : DB) : BeaconBlock :=
  match db.validatorsHeadRoot with
  | none => BeaconBlock.protoZero
  | some hr =>
    match lookupA db.validatorsBlocks hr with
    | none => BeaconBlock.protoZero
    | some b => b

/-- `filters.QueryFilter` with the criteria the embedded callers set:
`SetParentRoot`, `SetStartSlot`, `SetEndSlot`. -/
structure QueryFilter where
  parentRoot : Option Root
  startSlot : Option Nat
  endSlot : Option Nat
deriving DecidableEq, Repr

/-- Modelled from the spec: `sliceutil.IntersectionByteSlices` is not under
src/.  Per its use in `Blocks` ("we find the intersection across all of
them"), it returns the elements common to every input list; with a single
input list it is that list. -/
def intersectionLists : List (List Root) → List Root
  | [] => []
  | [l] => l
  | l :: ls => (intersectionLists ls).filter (· ∈ l)

/-- Modelled from the spec: `sliceutil.UnionByteSlices` is not under src/;
it returns the elements of all input lists. -/
def unionLists (ls : List (List Root)) : List Root :=
  ls.foldr (· ++ ·) []

/-- The cursor scan of `blockSlotIndicesBucket` in `Blocks`
(src/unnamed/part_003 lines 310-322): one root-list per slot key present in
the bucket between `min` and `max` inclusive (8-byte big-endian keys, so
byte order is numeric order). -/
def DB.slotRangeVals (db : DB) (s e : Nat) : List (List Root) :=
  (db.slotIdx.filter fun p => s ≤ p.1 ∧ p.1 ≤ e).map (·.2)

/-- `createBlockIndicesFromFilters` (src/unnamed/part_003 lines 506-519)
composed with `lookupValuesForIndicesMap` (the latter not under src/,
modelled as fetching each index's stored roots and skipping absent keys):
only the `ParentRoot` criterion is indexed; every other criterion falls
into the `default` branch, whose error return is commented out, and is
silently ignored. -/
def DB.blockIndicesVals (db : DB) (f : QueryFilter) : List (List Root) :=
  match f.parentRoot with
  | none => []
  | some pr =>
    match lookupA db.parentIdx pr with
    | none => []
    | some roots => [roots]

/-- `kv.Store.Blocks` (src/unnamed/part_003 lines 288-353).  With no filter,
all blocks.  Otherwise: the slot-range scan contributes one root-list per
slot only when *both* `StartSlot` and `EndSlot` are set; the index lookups
contribute the parent-root list; when index lookups exist, the keys are the
intersection of all these lists taken individually, otherwise the union of
the range lists.  Each key is then read from the blocks bucket — an absent
key unmarshals nil into the proto zero block, which is still appended. -/
def DB.blocksQuery (db : DB) (f : Option QueryFilter) : List BeaconBlock :=
  match f with
  | none => db.blocks.map (·.2)
  | some f =>
    let vals : List (List Root) :=
      match f.startSlot, f.endSlot with
      | some s, some e => db.slotRangeVals s e
      | _, _ => []
    let indices := db.blockIndicesVals f
    let keys :=
      if indices.length > 0 then intersectionLists (vals ++ indices)
      else unionLists vals
    keys.map fun k => (lookupA db.blocks k).getD BeaconBlock.protoZero

/-- `kv.Store.BlockRoots` (src/unnamed/part_003 lines 355-370): the signing
roots of the blocks matching the filter. -/
def DB.blockRoots (db : DB) (sr : BeaconBlock → Root) (f : Option QueryFilter) :
    List Root :=
  (db.blocksQuery f).map sr

/-- The in-memory fork-choice `Store` (src/unnamed/part_003 lines 21-31):
justified and finalized checkpoints plus the checkpoint-hash →
block-root side table.  `hashutil.HashProto` is injective on distinct
checkpoints, so the map is keyed by the checkpoint itself; a missing key
yields the Go zero value `[32]byte{}`, i.e. root `0`. -/
structure FCStore where
  justifiedCheckpt : Checkpoint
  finalizedCheckpt : Checkpoint
  checkptBlkRoot : List (Checkpoint × Root)
deriving DecidableEq, Repr

/-- `Store.ancestor` (src/unnamed/part_003 lines 103-120), with explicit
fuel for the unbounded recursion: `none` is fuel exhaustion (the Go
recursion not terminating), `some r?` is the Go return value (`r? = none`
models the nil result).  The `b == nil` disjunct of the source's guard is
dead code here because `kv.Store.Block` never returns nil; an absent block
is the proto zero block with slot 0. -/
def ancestorFuel (db : DB) : Nat → Root → Nat → Option (Option Root)
  | 0, _, _ => none
  | fuel + 1, root, slot =>
    let b := db.kvBlock root
    if b.slot < slot then some none
    else if b.slot = slot then some (some root)
    else ancestorFuel db fuel b.parentRoot slot

/-- `helpers.CurrentEpoch` (not under src/): spec glossary,
`slot = epoch * SLOTS_PER_EPOCH + offset`. -/
def currentEpoch (s : BeaconState) : Nat :=
  s.slot / SLOTS_PER_EPOCH

/-- Modelled from the spec: `helpers.ActiveValidatorIndices` is not under
src/; spec glossary, a validator is active iff
`activation epoch ≤ current epoch < exit epoch`. -/
def activeIndices (s : BeaconState) (epoch : Nat) : List Nat :=
  (List.range s.validators.length).filter fun i =>
    let v := s.validators.getD i ⟨0, 0, 0⟩
    v.activationEpoch ≤ epoch ∧ epoch < v.exitEpoch

/-- `Store.latestAttestingBalance` (src/unnamed/part_003 lines 133-180).
`none` is divergence of an inner `ancestor` walk; `some n` the returned
balance.  When the justified state is absent the source returns
`(0, errors.Wrapf(err, …))` with `err == nil`, and `errors.Wrapf` of nil
is nil — i.e. balance 0 with **no** error.  The target block is read with
`kv.Store.Block`, so an absent target is the proto zero block (slot 0). -/
def latestAttestingBalance (db : DB) (st : FCStore) (fuel : Nat)
    (root : Root) : Option Nat :=
  let lastJustifiedBlkRoot := (lookupA st.checkptBlkRoot st.justifiedCheckpt).getD 0
  match lookupA db.states lastJustifiedBlkRoot with
  | none => some 0
  | some s =>
    let active := activeIndices s (currentEpoch s)
    let wantedBlk := db.kvBlock root
    active.foldlM
      (fun bal i =>
        match lookupA db.latestVotes i with
        | none => some bal
        | some vote =>
          match ancestorFuel db fuel vote.root wantedBlk.slot with
          | none => none
          | some wantedRoot =>
            if wantedRoot = some root then
              some (bal + (s.validators.getD i ⟨0, 0, 0⟩).effectiveBalance)
            else some bal)
      0

/-- The children query at one iteration of `Store.Head`
(src/unnamed/part_003 lines 202-207): a filter with `ParentRoot = head` and
`StartSlot = justified epoch * SLOTS_PER_EPOCH` (no end slot), passed to
`BlockRoots`. -/
def headChildren (db : DB) (sr : BeaconBlock → Root) (st : FCStore)
    (head : Root) : List Root :=
  db.blockRoots sr
    (some ⟨some head, some (st.justifiedCheckpt.epoch * SLOTS_PER_EPOCH), none⟩)

/-- The argmax scan of `Store.Head` over `children[1:]`
(src/unnamed/part_003 lines 215-233): ties are broken lexicographically in
favour of the larger root (`bytes.Compare(child, head) > 0`). -/
def headSelect (db : DB) (st : FCStore) (abFuel : Nat) (c0 : Root)
    (rest : List Root) : Option Root :=
  match rest with
  | [] => some c0
  | _ => do
    let h0 ← latestAttestingBalance db st abFuel c0
    let chosen ← rest.foldlM
      (fun (acc : Nat × Root) child => do
        let bal ← latestAttestingBalance db st abFuel child
        if bal > acc.1 ∨ (bal = acc.1 ∧ child > acc.2) then pure (bal, child)
        else pure acc)
      (h0, c0)
    pure chosen.2

/-- The loop of `Store.Head` (src/unnamed/part_003 lines 198-235), with
fuel for the unbounded loop (`none` = the loop not terminating). -/
def headAux (db : DB) (sr : BeaconBlock → Root) (st : FCStore)
    (abFuel : Nat) : Nat → Root → Option Root
  | 0, _ => none
  | loopFuel + 1, head =>
    match headChildren db sr st head with
    | [] => some head
    | c :: rest =>
      match headSelect db st abFuel c rest with
      | none => none
      | some newHead => headAux db sr st abFuel loopFuel newHead

/-- `Store.Head` (src/unnamed/part_003 lines 198-235): the LMD-GHOST walk
starting from the justified root. -/
def headFC (db : DB) (sr : BeaconBlock → Root) (st : FCStore)
    (abFuel loopFuel : Nat) : Option Root :=
  headAux db sr st abFuel loopFuel st.justifiedCheckpt.root

/-- The errors `OnBlock` can return, in the spec's nomenclature (§4.C /
§7); each corresponds to one `return err` site of
`src/beacon-chain/blockchain/forkchoice/process_block.go`. -/
inductive OBError where
  | missingPreState
  | futureSlot
  | notDescendantOfFinalized
  | beforeFinalized
  | stateTransitionFailed
deriving DecidableEq, Repr

/-- `Store.OnBlock` (process_block.go lines 50-106), threading the database
and the fork-choice store explicitly.  `sr` is `ssz.SigningRoot`, `stf` the
external state-transition oracle (`none` = transition failure), `now` the
Unix time `time.Now().Unix()`, `fuel` the fuel of the inner `ancestor`
walk.  The result is `none` on divergence of that walk, otherwise the
database and store after the call together with the error returned (if
any).  Step order, as in the source: `verifyBlkPreState`,
`verifyBlkSlotTime`, `verifyBlkDescendant`, `verifyBlkFinalizedSlot`,
`ExecuteStateTransition`, `SaveBlock`, `SaveState`, justified update,
finalized update — whose assignment touches only the `Epoch` field
(`s.finalizedCheckpt.Epoch = postState.FinalizedCheckpoint.Epoch`). -/
def OnBlock (sr : BeaconBlock → Root)
    (stf : BeaconState → BeaconBlock → Option BeaconState)
    (now : Nat) (fuel : Nat) (db : DB) (st : FCStore) (b : BeaconBlock) :
    Option (DB × FCStore × Option OBError) :=
  match lookupA db.states b.parentRoot with
  | none => some (db, st, some .missingPreState)
  | some preState =>
    if preState.genesisTime + b.slot * SECONDS_PER_SLOT > now then
      some (db, st, some .futureSlot)
    else
      let root := sr b
      let finalizedBlk := db.kvBlock st.finalizedCheckpt.root
      match ancestorFuel db fuel root finalizedBlk.slot with
      | none => none
      | some bFinalizedRoot =>
        if bFinalizedRoot ≠ some st.finalizedCheckpt.root then
          some (db, st, some .notDescendantOfFinalized)
        else if st.finalizedCheckpt.epoch * SLOTS_PER_EPOCH ≥ b.slot then
          some (db, st, some .beforeFinalized)
        else
          match stf preState b with
          | none => some (db, st, some .stateTransitionFailed)
          | some postState =>
            let db' := (db.saveBlock sr b).saveState postState root
            let st' :=
              if postState.currentJustifiedCheckpoint.epoch >
                  st.justifiedCheckpt.epoch then
                { st with justifiedCheckpt := postState.currentJustifiedCheckpoint }
              else st
            let st'' :=
              if postState.finalizedCheckpoint.epoch >
                  st'.finalizedCheckpt.epoch then
                { st' with finalizedCheckpt :=
                    { st'.finalizedCheckpt with
                        epoch := postState.finalizedCheckpoint.epoch } }
              else st'
            some (db', st'', none)

/-- Check 1 of `OnBlock` (`verifyBlkPreState` fails): no pre-state for the
parent root. -/
def obChkPreState (db : DB) (b : BeaconBlock) : Bool :=
  (lookupA db.states b.parentRoot).isNone

/-- Check 2 of `OnBlock` (`verifyBlkSlotTime` fails): the block's slot time
is in the future.  `false` when check 1 already failed. -/
def obChkFuture (db : DB) (now : Nat) (b : BeaconBlock) : Bool :=
  match lookupA db.states b.parentRoot with
  | none => false
  | some preState =>
    decide (preState.genesisTime + b.slot * SECONDS_PER_SLOT > now)

/-- Check 3 of `OnBlock` (`verifyBlkDescendant` fails): the ancestor walk
terminates with something other than the finalized root. -/
def obChkDescendant (sr : BeaconBlock → Root) (fuel : Nat) (db : DB)
    (st : FCStore) (b : BeaconBlock) : Bool :=
  match ancestorFuel db fuel (sr b) (db.kvBlock st.finalizedCheckpt.root).slot with
  | none => false
  | some a => decide (a ≠ some st.finalizedCheckpt.root)

/-- Check 4 of `OnBlock` (`verifyBlkFinalizedSlot` fails): the block's slot
is at or before the finalized epoch's start slot. -/
def obChkFinalizedSlot (st : FCStore) (b : BeaconBlock) : Bool :=
  decide (st.finalizedCheckpt.epoch * SLOTS_PER_EPOCH ≥ b.slot)

/-- Check 5 of `OnBlock`: the state-transition oracle fails.  `false` when
check 1 already failed. -/
def obChkTransition (stf : BeaconState → BeaconBlock → Option BeaconState)
    (db : DB) (b : BeaconBlock) : Bool :=
  match lookupA db.states b.parentRoot with
  | none => false
  | some preState => (stf preState b).isNone

/-- The hash-addressed seen-cache of the proposer-slashing pipeline
(src/unnamed/part_000): messages are identified by their canonical
fingerprint `hashutil.HashProto`, modelled as the message itself; the
`invalid`-prefixed keyspace is disjoint from the plain one, so the cache
splits into two lists.  No eviction (the claims assume none). -/
structure SlashCache where
  seenValid : List Nat
  seenInvalid : List Nat
deriving DecidableEq, Repr

/-- The observable outcome of one `validateProposerSlashing` call: the
boolean verdict, the cache afterwards, whether `p.Broadcast` was invoked
and whether `blocks.VerifyProposerSlashing` was run. -/
structure VResult where
  verdict : Bool
  cache : SlashCache
  broadcastCalled : Bool
  predicateRun : Bool
deriving DecidableEq, Repr

/-- `RegularSync.validateProposerSlashing` (src/unnamed/part_000 lines
27-62).  `verify` is the `blocks.VerifyProposerSlashing` oracle (pure in
its arguments, per spec §6), `stateAvail` whether `r.db.HeadState`
succeeds, `bcastOk` whether `p.Broadcast` returns nil — its error is only
logged, so `bcastOk` influences nothing.  On the success path the cache is
written *before* the broadcast attempt. -/
def validateProposerSlashing (verify : Nat → Bool) (c : SlashCache)
    (stateAvail : Bool) (bcastOk : Bool) (m : Nat) : VResult :=
  if m ∈ c.seenInvalid then ⟨false, c, false, false⟩
  else if m ∈ c.seenValid then ⟨false, c, false, false⟩
  else if !stateAvail then ⟨false, c, false, false⟩
  else if !verify m then
    ⟨false, { c with seenInvalid := m :: c.seenInvalid }, false, true⟩
  else
    let _ := bcastOk
    ⟨true, { c with seenValid := m :: c.seenValid }, true, true⟩

/-! ## Concrete scenarios

The scenario blocks below carry pairwise-distinct `stateRoot` fields used
as their identities, so the signing-root function of the scenarios is the
`stateRoot` projection — injective on every block a scenario stores. -/

/-- Signing root (`ssz.SigningRoot`) for the concrete scenarios. -/
def srFixture : BeaconBlock → Root := fun b => b.stateRoot

/-- Scenario for C8/C3: genesis-like block `100` at slot 0, and block `101`
at slot 1 whose parent `300` is absent from the store. -/
def danglingDB : DB :=
  (DB.empty.saveBlock srFixture ⟨0, 0, 100⟩).saveBlock srFixture ⟨1, 300, 101⟩

/-- Scenario store for C3: justified and finalized at the genesis-like
checkpoint `{epoch 0, root 100}`, registered in the side table. -/
def c3Store : FCStore :=
  ⟨⟨0, 100⟩, ⟨0, 100⟩, [(⟨0, 100⟩, 100)]⟩

/-- Scenario database for C3: `danglingDB` with the justified state at root
`100` (one active validator of effective balance 32) and validator 0's
latest vote pointing at block `101`. -/
def c3DB : DB :=
  { danglingDB.saveState ⟨0, 0, [⟨32, 0, 10⟩], ⟨0, 100⟩, ⟨0, 100⟩⟩ 100 with
      latestVotes := [(0, ⟨0, 101⟩)] }

/-- C4: the claim says `get_block(root)` returns the absent value `None`
for a root never saved, never a default-valued block.  The source's
`kv.Store.Block` instead returns the non-nil proto zero block for an
absent root (`HasBlock` is false, the spec-worded lookup is `none`), while
a saved block does round-trip. -/
theorem c4_absent_block_is_proto_zero_not_none :
    DB.empty.hasBlock 42 = false ∧
    specGetBlock DB.empty 42 = none ∧
    DB.empty.kvBlock 42 = BeaconBlock.protoZero ∧
    (DB.empty.saveBlock srFixture ⟨1, 0, 101⟩).kvBlock 101 = ⟨1, 0, 101⟩ := by
  decide

/-- C10: the claim says that after `SaveBlock(b)` and
`SaveHeadBlockRoot(signing_root(b))`, `HeadBlock` returns `b`.  In the
source, `SaveHeadBlockRoot` writes the head root into the blocks bucket
while `HeadBlock` reads it (and the block itself) from the validators
bucket, so `HeadBlock` returns the proto zero block, not `b`. -/
theorem c10_head_block_roundtrip_fails :
    ((DB.empty.saveBlock srFixture ⟨1, 0, 101⟩).saveHeadBlockRoot 101).headBlock
        = BeaconBlock.protoZero ∧
    ((DB.empty.saveBlock srFixture ⟨1, 0, 101⟩).saveHeadBlockRoot 101).blocksHeadRoot
        = some 101 ∧
    lookupA ((DB.empty.saveBlock srFixture ⟨1, 0, 101⟩).saveHeadBlockRoot 101).blocks 101
        = some ⟨1, 0, 101⟩ ∧
    BeaconBlock.protoZero ≠ (⟨1, 0, 101⟩ : BeaconBlock) := by
  decide

/-- C8: the claim says `ancestor(r, s)` is `None` whenever the walk reaches
a missing block.  In the source the missing root `300` is read by
`kv.Store.Block` as the proto zero block with slot 0, so
`ancestor(101, 0)` returns `300` — a root with no stored block — instead
of `None`. -/
theorem c8_ancestor_returns_missing_root :
    ancestorFuel danglingDB 5 101 0 = some (some 300) ∧
    danglingDB.hasBlock 300 = false ∧
    danglingDB.hasBlock 101 = true ∧
    (danglingDB.kvBlock 101).slot = 1 := by
  decide

/-- C3 counterexample: the claim says `latest_attesting_balance(root)`
returns 0 whenever the target block for `root` is absent.  In the source
the absent target `300` is read as the proto zero block (slot 0), the walk
from validator 0's vote reaches `300` at slot 0, and the balance returned
is 32, not 0. -/
theorem c3_absent_target_nonzero_balance :
    latestAttestingBalance c3DB c3Store 5 300 = some 32 ∧
    latestAttestingBalance c3DB c3Store 5 300 ≠ some 0 ∧
    c3DB.hasBlock 300 = false := by
  decide

/-- C3 amended: `latest_attesting_balance` returns 0, without failing,
whenever the justified-checkpoint state is absent (the source wraps a nil
error there, so no error either); an absent target block does not fail but
is read as the proto zero block at slot 0, and the result then need not be
0. -/
theorem c3_state_absent_returns_zero (db : DB) (st : FCStore) (fuel : Nat)
    (root : Root)
    (h : lookupA db.states ((lookupA st.checkptBlkRoot st.justifiedCheckpt).getD 0)
          = none) :
    latestAttestingBalance db st fuel root = some 0 := by
  unfold latestAttestingBalance
  simp [h]

/-- C3 amended witness: the empty database has no justified state. -/
theorem c3_state_absent_returns_zero_witness :
    latestAttestingBalance DB.empty ⟨⟨0, 0⟩, ⟨0, 0⟩, []⟩ 1 5 = some 0 :=
  c3_state_absent_returns_zero DB.empty ⟨⟨0, 0⟩, ⟨0, 0⟩, []⟩ 1 5 rfl

/-- Scenario database for C1: genesis-like block `100` (slot 0), its state
at root `100`, and the incoming block `101` (slot 1, parent `100`) already
saved by the sync path, as the `OnBlock` callers do before invoking it. -/
def c1DB : DB :=
  ((DB.empty.saveBlock srFixture ⟨0, 0, 100⟩).saveBlock srFixture
      ⟨1, 100, 101⟩).saveState ⟨0, 0, [], ⟨0, 100⟩, ⟨0, 100⟩⟩ 100

/-- Scenario store for C1: justified and finalized at `{epoch 0, root 100}`. -/
def c1Store : FCStore :=
  ⟨⟨0, 100⟩, ⟨0, 100⟩, [(⟨0, 100⟩, 100)]⟩

/-- C1 post-state: the state transition yields a state whose justified and
finalized checkpoints are both `{epoch 1, root 200}`. -/
def c1Post : BeaconState :=
  ⟨0, 8, [], ⟨1, 200⟩, ⟨1, 200⟩⟩

/-- C1: the claim says that when the post-state's finalized epoch exceeds
the store's, the store's finalized checkpoint is replaced, both fields.
The source assigns only the epoch
(`s.finalizedCheckpt.Epoch = postState.FinalizedCheckpoint.Epoch`): after
a successful `OnBlock` whose post-state finalized checkpoint is
`{epoch 1, root 200}`, the store holds `{epoch 1, root 100}` — the old
root — while the justified checkpoint was replaced whole. -/
theorem c1_finalized_root_not_replaced :
    OnBlock srFixture (fun _ _ => some c1Post) 1000 5 c1DB c1Store ⟨1, 100, 101⟩
      = some ((c1DB.saveBlock srFixture ⟨1, 100, 101⟩).saveState c1Post 101,
              ⟨⟨1, 200⟩, ⟨1, 100⟩, [(⟨0, 100⟩, 100)]⟩, none) ∧
    c1Post.finalizedCheckpoint = ⟨1, 200⟩ ∧
    (⟨1, 100⟩ : Checkpoint) ≠ c1Post.finalizedCheckpoint := by
  decide

/-- Scenario database for C2: justified-root block `100` at slot 8 and its
child `101` at slot 2 — a slot at or before the justified start slot 8. -/
def c2DB : DB :=
  (DB.empty.saveBlock srFixture ⟨8, 0, 100⟩).saveBlock srFixture ⟨2, 100, 101⟩

/-- Scenario store for C2: justified checkpoint `{epoch 1, root 100}`, so
the justified start slot is `1 * SLOTS_PER_EPOCH = 8`. -/
def c2Store : FCStore :=
  ⟨⟨1, 100⟩, ⟨0, 100⟩, [(⟨1, 100⟩, 100)]⟩

/-- C2: the claim says the candidate children at each `Head` iteration are
exactly the stored blocks with `parent_root = head` and
`slot > justified.epoch * SLOTS_PER_EPOCH`, and that a child at or below
that slot is never considered.  In the source, `Head` passes a `StartSlot`
filter with no `EndSlot`, which `Blocks` silently drops (and even honored
it would be `≥`, not `>`), so the child at slot 2 ≤ 8 is the sole
candidate and `Head` returns it. -/
theorem c2_low_slot_child_considered :
    headChildren c2DB srFixture c2Store 100 = [101] ∧
    (c2DB.kvBlock 101).slot = 2 ∧
    c2Store.justifiedCheckpt.epoch * SLOTS_PER_EPOCH = 8 ∧
    headFC c2DB srFixture c2Store 5 5 = some 101 := by
  decide

/-- Scenario database for C5: parent block `100` (slot 0) with two children
`101` (slot 1) and `102` (slot 2). -/
def c5DB : DB :=
  ((DB.empty.saveBlock srFixture ⟨0, 0, 100⟩).saveBlock srFixture
      ⟨1, 100, 101⟩).saveBlock srFixture ⟨2, 100, 102⟩

/-- C5: the claim says a multi-criterion query returns the intersection of
the per-criterion candidate sets and that no specified criterion is
ignored.  In the source, each slot of the range contributes its own
root-list to one big intersection, so `parent = 100 ∧ 1 ≤ slot ≤ 2` —
matched by both stored children — returns the empty list; a `start_slot`
bound alone is silently dropped and returns the empty list as well.  The
no-criterion case does return all stored blocks. -/
theorem c5_multi_criterion_query_wrong :
    c5DB.blocksQuery (some ⟨some 100, some 1, some 2⟩) = [] ∧
    lookupA c5DB.blocks 101 = some ⟨1, 100, 101⟩ ∧
    lookupA c5DB.blocks 102 = some ⟨2, 100, 102⟩ ∧
    (⟨1, 100, 101⟩ : BeaconBlock).parentRoot = 100 ∧
    (⟨2, 100, 102⟩ : BeaconBlock).parentRoot = 100 ∧
    c5DB.blocksQuery (some ⟨none, some 1, none⟩) = [] ∧
    c5DB.blocksQuery none = [⟨0, 0, 100⟩, ⟨1, 100, 101⟩, ⟨2, 100, 102⟩] := by
  decide

/-- C6: `validate(M)` called twice with the same message (no eviction in
between) returns `true` at most once; a first `true` call invokes the
Broadcaster, and the second call returns `false` without invoking the
Broadcaster and without re-running the predicate. -/
theorem c6_validate_dedup (verify : Nat → Bool) (c : SlashCache)
    (sa1 bo1 sa2 bo2 : Bool) (m : Nat) :
    ¬((validateProposerSlashing verify c sa1 bo1 m).verdict = true ∧
      (validateProposerSlashing verify
        (validateProposerSlashing verify c sa1 bo1 m).cache sa2 bo2 m).verdict
          = true) ∧
    ((validateProposerSlashing verify c sa1 bo1 m).verdict = true →
      (validateProposerSlashing verify c sa1 bo1 m).broadcastCalled = true) ∧
    ((validateProposerSlashing verify c sa1 bo1 m).verdict = true →
      (validateProposerSlashing verify
          (validateProposerSlashing verify c sa1 bo1 m).cache sa2 bo2 m)
        = ⟨false, (validateProposerSlashing verify c sa1 bo1 m).cache,
            false, false⟩) := by
  unfold validateProposerSlashing
  by_cases h1 : m ∈ c.seenInvalid <;> by_cases h2 : m ∈ c.seenValid <;>
    cases sa1 <;> cases hv : verify m <;>
    simp [h1, h2, hv]

/-- C6 witness: both calls at a concrete always-valid message. -/
theorem c6_validate_dedup_witness :
    ¬((validateProposerSlashing (fun _ => true) ⟨[], []⟩ true true 0).verdict = true ∧
      (validateProposerSlashing (fun _ => true)
        (validateProposerSlashing (fun _ => true) ⟨[], []⟩ true true 0).cache
        true true 0).verdict = true) ∧
    ((validateProposerSlashing (fun _ => true) ⟨[], []⟩ true true 0).verdict = true →
      (validateProposerSlashing (fun _ => true) ⟨[], []⟩ true true 0).broadcastCalled
        = true) ∧
    ((validateProposerSlashing (fun _ => true) ⟨[], []⟩ true true 0).verdict = true →
      (validateProposerSlashing (fun _ => true)
          (validateProposerSlashing (fun _ => true) ⟨[], []⟩ true true 0).cache
          true true 0)
        = ⟨false, (validateProposerSlashing (fun _ => true) ⟨[], []⟩ true true 0).cache,
            false, false⟩) :=
  c6_validate_dedup (fun _ => true) ⟨[], []⟩ true true true true 0

/-- C7 counterexample: a valid slashing (message `7`) whose broadcast
fails.  The verdict is `true` and the Broadcaster was invoked, but the
positive cache entry was already written, so the re-received identical
message is dropped by the seen-cache: the second call returns `false` and
the broadcast is *not* retried — refuting the claim's retry conclusion. -/
theorem c7_broadcast_not_retried_counterexample :
    (validateProposerSlashing (fun _ => true) ⟨[], []⟩ true false 7).verdict = true ∧
    (validateProposerSlashing (fun _ => true) ⟨[], []⟩ true false 7).broadcastCalled
      = true ∧
    7 ∈ (validateProposerSlashing (fun _ => true) ⟨[], []⟩ true false 7).cache.seenValid ∧
    (validateProposerSlashing (fun _ => true)
        (validateProposerSlashing (fun _ => true) ⟨[], []⟩ true false 7).cache
        true true 7).verdict = false ∧
    (validateProposerSlashing (fun _ => true)
        (validateProposerSlashing (fun _ => true) ⟨[], []⟩ true false 7).cache
        true true 7).broadcastCalled = false := by
  decide

/-- C7 amended: for every valid, unseen proposer slashing whose broadcast
fails, the verdict is still `true` and the broadcast failure changes
nothing (the call's outcome equals that of a successful broadcast); but
the positive cache entry is written before the broadcast attempt, so a
re-received identical message is dropped by the seen-cache and the
broadcast is not retried. -/
theorem c7_broadcast_failure_amended (verify : Nat → Bool) (c : SlashCache)
    (m : Nat) (sa2 bo2 : Bool) (hv : verify m = true)
    (hni : m ∉ c.seenInvalid) (hnv : m ∉ c.seenValid) :
    (validateProposerSlashing verify c true false m).verdict = true ∧
    (validateProposerSlashing verify c true false m).broadcastCalled = true ∧
    validateProposerSlashing verify c true false m
      = validateProposerSlashing verify c true true m ∧
    (validateProposerSlashing verify
        (validateProposerSlashing verify c true false m).cache sa2 bo2 m).verdict
      = false ∧
    (validateProposerSlashing verify
        (validateProposerSlashing verify c true false m).cache sa2 bo2 m).broadcastCalled
      = false := by
  unfold validateProposerSlashing
  simp [hni, hnv, hv]

/-- C7 amended witness: the concrete message `7`, valid and unseen. -/
theorem c7_broadcast_failure_amended_witness :
    (validateProposerSlashing (fun _ => true) ⟨[], []⟩ true false 7).verdict = true ∧
    (validateProposerSlashing (fun _ => true) ⟨[], []⟩ true false 7).broadcastCalled
      = true ∧
    validateProposerSlashing (fun _ => true) ⟨[], []⟩ true false 7
      = validateProposerSlashing (fun _ => true) ⟨[], []⟩ true true 7 ∧
    (validateProposerSlashing (fun _ => true)
        (validateProposerSlashing (fun _ => true) ⟨[], []⟩ true false 7).cache
        true true 7).verdict = false ∧
    (validateProposerSlashing (fun _ => true)
        (validateProposerSlashing (fun _ => true) ⟨[], []⟩ true false 7).cache
        true true 7).broadcastCalled = false :=
  c7_broadcast_failure_amended (fun _ => true) ⟨[], []⟩ 7 true true rfl
    (List.not_mem_nil 7) (List.not_mem_nil 7)

/-- The error of the first failing `OnBlock` check in the claim's order —
pre-state, slot-time, finalized-descendant, post-finalized-epoch, state
transition — and `none` when every check passes. -/
def obFirstFailure (sr : BeaconBlock → Root)
    (stf : BeaconState → BeaconBlock → Option BeaconState)
    (now fuel : Nat) (db : DB) (st : FCStore) (b : BeaconBlock) :
    Option OBError :=
  if obChkPreState db b then some .missingPreState
  else if obChkFuture db now b then some .futureSlot
  else if obChkDescendant sr fuel db st b then some .notDescendantOfFinalized
  else if obChkFinalizedSlot st b then some .beforeFinalized
  else if obChkTransition stf db b then some .stateTransitionFailed
  else none

/-- C9: whenever `OnBlock` returns (does not diverge), the error it
reports is exactly that of the first failing check, in the order
pre-state, slot-time, finalized-descendant, post-finalized-epoch, state
transition (`none` when all pass), and on any failure the database — so
neither block nor state was persisted — and the store's justified and
finalized checkpoints are unchanged. -/
theorem c9_onblock_precondition_order (sr : BeaconBlock → Root)
    (stf : BeaconState → BeaconBlock → Option BeaconState)
    (now fuel : Nat) (db : DB) (st : FCStore) (b : BeaconBlock)
    (db' : DB) (st' : FCStore) (oe : Option OBError)
    (h : OnBlock sr stf now fuel db st b = some (db', st', oe)) :
    oe = obFirstFailure sr stf now fuel db st b ∧
    (oe.isSome → db' = db ∧ st' = st) := by
  unfold OnBlock at h
  simp only [] at h
  split at h
  next hpre =>
    simp only [Option.some.injEq, Prod.mk.injEq] at h
    obtain ⟨hdb, hst, hoe⟩ := h
    subst hdb; subst hst; subst hoe
    refine ⟨?_, fun _ => ⟨rfl, rfl⟩⟩
    unfold obFirstFailure obChkPreState
    simp [hpre]
  next preState hpre =>
    split at h
    next hfut =>
      simp only [Option.some.injEq, Prod.mk.injEq] at h
      obtain ⟨hdb, hst, hoe⟩ := h
      subst hdb; subst hst; subst hoe
      refine ⟨?_, fun _ => ⟨rfl, rfl⟩⟩
      unfold obFirstFailure obChkPreState obChkFuture
      simp [hpre, hfut]
    next hfut =>
      split at h
      next hanc => exact Option.noConfusion h
      next a hanc =>
        split at h
        next hdesc =>
          simp only [Option.some.injEq, Prod.mk.injEq] at h
          obtain ⟨hdb, hst, hoe⟩ := h
          subst hdb; subst hst; subst hoe
          refine ⟨?_, fun _ => ⟨rfl, rfl⟩⟩
          unfold obFirstFailure obChkPreState obChkFuture obChkDescendant
          simp [hpre, hfut, hanc, hdesc]
        next hdesc =>
          split at h
          next hfin =>
            simp only [Option.some.injEq, Prod.mk.injEq] at h
            obtain ⟨hdb, hst, hoe⟩ := h
            subst hdb; subst hst; subst hoe
            refine ⟨?_, fun _ => ⟨rfl, rfl⟩⟩
            unfold obFirstFailure obChkPreState obChkFuture obChkDescendant
              obChkFinalizedSlot
            simp [hpre, hfut, hanc, hdesc, hfin]
          next hfin =>
            split at h
            next htr =>
              simp only [Option.some.injEq, Prod.mk.injEq] at h
              obtain ⟨hdb, hst, hoe⟩ := h
              subst hdb; subst hst; subst hoe
              refine ⟨?_, fun _ => ⟨rfl, rfl⟩⟩
              unfold obFirstFailure obChkPreState obChkFuture obChkDescendant
                obChkFinalizedSlot obChkTransition
              simp [hpre, hfut, hanc, hdesc, hfin, htr]
            next postState htr =>
              simp only [Option.some.injEq, Prod.mk.injEq] at h
              obtain ⟨hdb, hst, hoe⟩ := h
              subst hoe
              refine ⟨?_, by simp⟩
              unfold obFirstFailure obChkPreState obChkFuture obChkDescendant
                obChkFinalizedSlot obChkTransition
              simp [hpre, hfut, hanc, hdesc, hfin, htr]

/-- C9 witness: a block whose parent has no stored pre-state is rejected
with the first check's error and nothing changes. -/
theorem c9_onblock_precondition_order_witness :
    (some OBError.missingPreState
        = obFirstFailure srFixture (fun _ _ => none) 0 1 DB.empty
            ⟨⟨0, 0⟩, ⟨0, 0⟩, []⟩ ⟨1, 0, 101⟩) ∧
    ((some OBError.missingPreState).isSome →
      DB.empty = DB.empty ∧
        (⟨⟨0, 0⟩, ⟨0, 0⟩, []⟩ : FCStore) = ⟨⟨0, 0⟩, ⟨0, 0⟩, []⟩) :=
  c9_onblock_precondition_order srFixture (fun _ _ => none) 0 1 DB.empty
    ⟨⟨0, 0⟩, ⟨0, 0⟩, []⟩ ⟨1, 0, 101⟩ DB.empty ⟨⟨0, 0⟩, ⟨0, 0⟩, []⟩
    (some .missingPreState) (by decide)

end Prysm
